import Mathlib

/-!
Shallow embedding of the model-provider orchestration core of the
obsidian-copilot repository (chatModelManager.ts, embeddingManager.ts,
chainManager.ts, aiParams.ts, GeneralSettings.tsx).

Conventions of the embedding:
* JavaScript `string | undefined` values are `Option String`; a JS object
  field that may be absent or `undefined` is an `Option` field (reading an
  absent key and reading an `undefined` value are indistinguishable in the
  source, so the two are conflated).
* JS numbers are `Int` for token counts, efforts and timeouts, and `Rat`
  for temperatures.
* `a || b` on strings (falsy = empty string) is `jsOrStr` / `jsOrStrS`;
  `a || b` on numbers (falsy = 0) is `jsOrNum`.
* JS objects used as string-keyed maps (`modelMap`, `modelConfigs`) are
  association lists; property assignment `obj[k] = v` is `objSet`, which
  replaces in place or appends, exactly like JS property update order.
* `lodash.merge` on the flat runtime-config records is a field-wise
  "defined source field wins" merge (`lodash` skips `undefined` sources).
-/

/-- JS `a || b` where `a : string | undefined` and falsy means `undefined` or `""`. -/
def jsOrStr (a : Option String) (b : String) : String :=
  match a with
  | some s => if s = "" then b else s
  | none => b

/-- JS `a || b` on two plain strings (falsy = empty string). -/
def jsOrStrS (a b : String) : String :=
  if a = "" then b else a

/-- JS `a || b` where `a : number | undefined` and falsy means `undefined` or `0`. -/
def jsOrNum (a : Option Rat) (b : Rat) : Rat :=
  match a with
  | some x => if x = 0 then b else x
  | none => b

/-- JS `String.prototype.split` restricted to a single-character separator:
    structural recursion over the character list, so concrete instances
    reduce inside the kernel. -/
def jsSplitAux (c : Char) : List Char → List Char → List String
  | [], acc => [String.mk acc.reverse]
  | x :: xs, acc =>
      if x = c then String.mk acc.reverse :: jsSplitAux c xs []
      else jsSplitAux c xs (x :: acc)

/-- JS `s.split(c)` for a one-character separator `c`. -/
def jsSplit (s : String) (c : Char) : List String :=
  jsSplitAux c s.data []

/-- JS `s.startsWith(pre)`, computed structurally on the character lists. -/
def strStartsWith (s pre : String) : Bool :=
  pre.data.isPrefixOf s.data

/-- JS object property read `obj[k]` on a string-keyed object modelled as an
    association list (first binding wins; `objSet` keeps keys unique). -/
def objGet {α : Type} (m : List (String × α)) (k : String) : Option α :=
  match m with
  | [] => none
  | (k', v) :: rest => if k' = k then some v else objGet rest k

/-- JS object property write `obj[k] = v`: replaces the binding in place when
    the key exists, appends otherwise (JS property insertion order). -/
def objSet {α : Type} (m : List (String × α)) (k : String) (v : α) : List (String × α) :=
  match m with
  | [] => [(k, v)]
  | (k', v') :: rest => if k' = k then (k, v) :: rest else (k', v') :: objSet rest k v

/-- `AzureDeployment` record of `src/types.ts` / `aiParams.ts`. -/
structure AzureDeployment where
  deploymentName : String
  instanceName : String
  apiKey : String
  apiVersion : String
  isEnabled : Bool
deriving DecidableEq

/-- `CustomModel` descriptor (`src/types.ts`): identity is `name|provider`. -/
structure CustomModel where
  name : String
  provider : String
  baseUrl : Option String := none
  apiKey : Option String := none
  enabled : Bool := true
  enableCors : Option Bool := none
  isBuiltIn : Option Bool := none
  core : Option Bool := none
deriving DecidableEq

/-- `getModelKey` of `src/types.ts`: the identity key is name and provider
    joined with a pipe. -/
def getModelKey (m : CustomModel) : String :=
  m.name ++ "|" ++ m.provider

/-- A per-model-key runtime configuration record, an entry of
    `settings.modelConfigs` (the optional fields of the `ModelConfig`
    interface that `updateModelConfig` and `getModelConfig` read or write). -/
structure ModelConfigRec where
  temperature : Option Rat := none
  maxTokens : Option Int := none
  maxCompletionTokens : Option Int := none
  reasoningEffort : Option Int := none
  azureOpenAIApiKey : Option String := none
  azureOpenAIApiInstanceName : Option String := none
  azureOpenAIApiDeploymentName : Option String := none
  azureOpenAIApiVersion : Option String := none
deriving DecidableEq

/-- The empty runtime-config record (`settings.modelConfigs[key] || {}`). -/
def emptyModelConfigRec : ModelConfigRec := {}

/-- The slice of the global settings object that the embedded functions read. -/
structure Settings where
  activeModels : List CustomModel := []
  activeEmbeddingModels : List CustomModel := []
  modelConfigs : List (String × ModelConfigRec) := []
  defaultModelKey : String := ""
  temperature : Rat := 0
  openAIApiKey : String := ""
  openAIOrgId : String := ""
  anthropicApiKey : String := ""
  cohereApiKey : String := ""
  googleApiKey : String := ""
  openRouterAiApiKey : String := ""
  groqApiKey : String := ""
  azureOpenAIApiKey : String := ""
  azureOpenAIApiInstanceName : String := ""
  azureOpenAIApiDeploymentName : String := ""
  azureOpenAIApiVersion : String := ""
  azureOpenAIApiDeployments : List AzureDeployment := []
  plusLicenseKey : String := ""
deriving DecidableEq

/-- The eleven string values of the `ChatModelProviders` enum of `src/types.ts`. -/
def chatProviderValues : List String :=
  ["openai", "azure_openai", "anthropic", "cohereai", "google", "openrouterai",
   "groq", "ollama", "lm-studio", "3rd party (openai-format)", "openai-format"]

/-- Identity of the adapter class a chat provider is constructed with
    (the right-hand sides of `CHAT_PROVIDER_CONSTRUCTORS`). -/
inductive ChatCtorTag where
  | chatOpenAI
  | chatAnthropic
  | chatCohere
  | chatGoogleGenerativeAI
  | chatGroq
  | chatOllama
deriving DecidableEq

/-- `CHAT_PROVIDER_CONSTRUCTORS` of `chatModelManager.ts`: ten entries; note
    that `3rd party (openai-format)` is in the provider enum but has no
    constructor entry, so it maps to `none` (reading it yields `undefined`). -/
def chatProviderCtor : String → Option ChatCtorTag
  | "openai" => some .chatOpenAI
  | "azure_openai" => some .chatOpenAI
  | "anthropic" => some .chatAnthropic
  | "cohereai" => some .chatCohere
  | "google" => some .chatGoogleGenerativeAI
  | "openrouterai" => some .chatOpenAI
  | "ollama" => some .chatOllama
  | "lm-studio" => some .chatOpenAI
  | "groq" => some .chatGroq
  | "openai-format" => some .chatOpenAI
  | _ => none

/-- `providerApiKeyMap` of `ChatModelManager`: the default credential each
    provider resolves from settings; `3rd party (openai-format)` is absent
    from the map (`none`), all pure-local providers yield `"default-key"`. -/
def chatProviderDefaultKey (s : Settings) : String → Option String
  | "openai" => some s.openAIApiKey
  | "google" => some s.googleApiKey
  | "azure_openai" => some s.azureOpenAIApiKey
  | "anthropic" => some s.anthropicApiKey
  | "cohereai" => some s.cohereApiKey
  | "openrouterai" => some s.openRouterAiApiKey
  | "groq" => some s.groqApiKey
  | "ollama" => some "default-key"
  | "lm-studio" => some "default-key"
  | "openai-format" => some "default-key"
  | _ => none

/-- An entry of `ChatModelManager.modelMap`. -/
structure ChatMapEntry where
  hasApiKey : Bool
  ctor : ChatCtorTag
  vendor : String
deriving DecidableEq

/-- The credential `buildModelMap` resolves for a chat descriptor:
    `model.apiKey || getDefaultApiKey()` (the model-specific key when
    non-empty, else the provider default from settings, read as `""` when the
    provider has no map entry). -/
def chatResolveCredential (s : Settings) (m : CustomModel) : String :=
  jsOrStr m.apiKey ((chatProviderDefaultKey s m.provider).getD "")

/-- Loop body of `ChatModelManager.buildModelMap`'s `forEach`: threads the
    map being built and stops with the thrown message when
    `getProviderConstructor` throws (a provider inside the enum but outside
    `CHAT_PROVIDER_CONSTRUCTORS`); disabled models and providers outside the
    enum are skipped. -/
def chatBuildModelMapGo (s : Settings) :
    List CustomModel → List (String × ChatMapEntry) →
    List (String × ChatMapEntry) × Option String
  | [], acc => (acc, none)
  | m :: rest, acc =>
    if m.enabled then
      if chatProviderValues.contains m.provider then
        match chatProviderCtor m.provider with
        | none =>
            (acc, some ("Unknown provider: " ++ m.provider ++ " for model: " ++ m.name))
        | some ctor =>
            let apiKey := chatResolveCredential s m
            let modelKey := m.name ++ "|" ++ m.provider
            let entry : ChatMapEntry :=
              { hasApiKey := jsOrStr m.apiKey apiKey ≠ "", ctor := ctor, vendor := m.provider }
            chatBuildModelMapGo s rest (objSet acc modelKey entry)
      else chatBuildModelMapGo s rest acc
    else chatBuildModelMapGo s rest acc

/-- `ChatModelManager.buildModelMap`: resets the static map and refills it
    from `settings.activeModels`; the second component is the error message of
    an uncaught `getProviderConstructor` throw, `none` on a clean run. -/
def chatBuildModelMap (s : Settings) : List (String × ChatMapEntry) × Option String :=
  chatBuildModelMapGo s s.activeModels []

/-- The mutable static state of `ChatModelManager` (`modelMap`, `chatModel`)
    together with the process-wide current model key that `setModelKey`
    writes; `α` is the type of live client objects. -/
structure ChatManagerState (α : Type) where
  modelMap : List (String × ChatMapEntry) := []
  chatModel : Option α := none
  modelKey : Option String := none

/-- A settings-change rebuild of the chat registry: replaces `modelMap` with a
    fresh build from the given settings, leaving the other state alone. -/
def chatRebuild {α : Type} (s : Settings) (st : ChatManagerState α) : ChatManagerState α :=
  { st with modelMap := (chatBuildModelMap s).1 }

/-- The `configuration` sub-object passed to OpenAI-style constructors;
    `usesSafeFetch` records whether the `fetch` key holds `safeFetch`
    (`true`) or `undefined` (`false`). -/
structure ConfigurationR where
  baseURL : Option String := none
  usesSafeFetch : Bool := false
  dangerouslyAllowBrowser : Option Bool := none
deriving DecidableEq

/-- The `clientOptions` sub-object of the Anthropic branch. -/
structure ClientOptionsR where
  anthropicDirectBrowserHeader : Bool := false
  usesSafeFetch : Bool := false
deriving DecidableEq

/-- One entry of the Google branch's `safetySettings` array. -/
structure SafetySettingR where
  category : String
  threshold : String
deriving DecidableEq

/-- The `extraParams` object produced by `handleOpenAIExtraArgs` for o1
    models. -/
structure ExtraParamsR where
  reasoning_effort : Option Int := none
deriving DecidableEq

/-- The resolved provider parameter object returned by
    `ChatModelManager.getModelConfig` (`{...baseConfig, ...selectedProviderConfig}`):
    the union of the keys the base config and every provider branch can set,
    with `Option` marking keys that can be absent or `undefined`. -/
structure ResolvedConfig where
  modelName : String := ""
  temperature : Option Rat := none
  streaming : Option Bool := none
  maxRetries : Option Int := none
  maxConcurrency : Option Int := none
  maxTokens : Option Int := none
  maxCompletionTokens : Option Int := none
  reasoningEffort : Option Int := none
  enableCors : Option Bool := none
  openAIApiKey : Option String := none
  openAIOrgId : Option String := none
  anthropicApiKey : Option String := none
  anthropicApiUrl : Option String := none
  apiKey : Option String := none
  azureOpenAIApiKey : Option String := none
  azureOpenAIApiInstanceName : Option String := none
  azureOpenAIApiDeploymentName : Option String := none
  azureOpenAIApiVersion : Option String := none
  baseUrl : Option String := none
  model : Option String := none
  configuration : Option ConfigurationR := none
  clientOptions : Option ClientOptionsR := none
  safetySettings : Option (List SafetySettingR) := none
  extraParams : Option ExtraParamsR := none
deriving DecidableEq

/-- `ChatModelManager.handleOpenAIExtraArgs`, applied as the trailing spread
    of an OpenAI-style provider branch: for an o1 model it overrides
    `maxCompletionTokens`, forces `temperature` to 1 and adds
    `extraParams.reasoning_effort`; the `o1-preview` branch is unreachable
    (every `o1-preview` name also starts with `o1`); otherwise it overrides
    `maxTokens` and `temperature` with the raw runtime-config values
    (spreading a key whose value is `undefined` still overrides). -/
def handleOpenAIExtraArgs (isO1Model isPreviewModel : Bool)
    (maxTokens : Option Int) (temperature : Option Rat)
    (maxCompletionTokens : Option Int) (reasoningEffort : Option Int)
    (cfg : ResolvedConfig) : ResolvedConfig :=
  if isO1Model then
    { cfg with
      maxCompletionTokens := maxCompletionTokens
      temperature := some 1
      extraParams := some { reasoning_effort := reasoningEffort } }
  else if isPreviewModel then
    { cfg with
      maxCompletionTokens := maxCompletionTokens
      temperature := some 1 }
  else
    { cfg with
      maxTokens := maxTokens
      temperature := temperature }

/-- `ChatModelManager.getModelConfig`, parametrised by the external
    `getDecryptedKey` collaborator (`decrypt`).  The provider-literal record
    `providerConfig` indexed at `customModel.provider` (falling back to `{}`
    for providers without a branch, such as `3rd party (openai-format)` or an
    unrecognised string) is rendered as a case split on the provider; each
    branch returns `{...baseConfig, ...branch}`. -/
def chatGetModelConfig (decrypt : String → String) (s : Settings) (m : CustomModel) :
    ResolvedConfig :=
  let modelKey := getModelKey m
  let modelConfig := (objGet s.modelConfigs modelKey).getD emptyModelConfigRec
  let modelName := m.name
  let isO1Model := strStartsWith modelName "o1"
  let isPreviewModel := strStartsWith modelName "o1-preview"
  let usesSafeFetch := m.enableCors = some true
  let base : ResolvedConfig :=
    { modelName := modelName
      temperature := some (jsOrNum modelConfig.temperature s.temperature)
      streaming := some true
      maxRetries := some 3
      maxConcurrency := some 3
      maxTokens := modelConfig.maxTokens
      maxCompletionTokens := modelConfig.maxCompletionTokens
      reasoningEffort := if isO1Model then modelConfig.reasoningEffort else none
      enableCors := m.enableCors }
  let azureDeploymentName :=
    if strStartsWith modelKey "o1-preview" then ((jsSplit modelKey '|').get? 1).getD ""
    else ""
  let deployment :=
    if azureDeploymentName ≠ "" then
      s.azureOpenAIApiDeployments.find? (fun d => d.deploymentName == azureDeploymentName)
    else none
  let azureApiKey := match deployment with | some d => d.apiKey | none => ""
  let azureInstanceName := match deployment with | some d => d.instanceName | none => ""
  let azureApiVersion := match deployment with | some d => d.apiVersion | none => ""
  let extraArgs := handleOpenAIExtraArgs isO1Model isPreviewModel
    modelConfig.maxTokens modelConfig.temperature
    modelConfig.maxCompletionTokens modelConfig.reasoningEffort
  if m.provider = "openai" then
    extraArgs { base with
      modelName := modelName
      openAIApiKey := some (decrypt (jsOrStr m.apiKey s.openAIApiKey))
      configuration := some { baseURL := m.baseUrl, usesSafeFetch := usesSafeFetch }
      openAIOrgId := some (decrypt s.openAIOrgId) }
  else if m.provider = "anthropic" then
    { base with
      anthropicApiKey := some (decrypt (jsOrStr m.apiKey s.anthropicApiKey))
      modelName := modelName
      anthropicApiUrl := m.baseUrl
      clientOptions := some { anthropicDirectBrowserHeader := true, usesSafeFetch := usesSafeFetch } }
  else if m.provider = "azure_openai" then
    extraArgs { base with
      azureOpenAIApiKey := some (decrypt (jsOrStrS azureApiKey s.azureOpenAIApiKey))
      azureOpenAIApiInstanceName := some (jsOrStrS azureInstanceName s.azureOpenAIApiInstanceName)
      azureOpenAIApiDeploymentName := some (jsOrStrS azureDeploymentName s.azureOpenAIApiDeploymentName)
      azureOpenAIApiVersion := some (jsOrStrS azureApiVersion s.azureOpenAIApiVersion)
      configuration := some { baseURL := m.baseUrl, usesSafeFetch := usesSafeFetch } }
  else if m.provider = "cohereai" then
    { base with
      apiKey := some (decrypt (jsOrStr m.apiKey s.cohereApiKey))
      model := some modelName }
  else if m.provider = "google" then
    { base with
      apiKey := some (decrypt (jsOrStr m.apiKey s.googleApiKey))
      modelName := modelName
      safetySettings := some
        [{ category := "HARM_CATEGORY_SEXUALLY_EXPLICIT", threshold := "BLOCK_NONE" },
         { category := "HARM_CATEGORY_HATE_SPEECH", threshold := "BLOCK_NONE" },
         { category := "HARM_CATEGORY_DANGEROUS_CONTENT", threshold := "BLOCK_NONE" },
         { category := "HARM_CATEGORY_HARASSMENT", threshold := "BLOCK_NONE" }]
      baseUrl := m.baseUrl }
  else if m.provider = "openrouterai" then
    { base with
      modelName := modelName
      openAIApiKey := some (decrypt (jsOrStr m.apiKey s.openRouterAiApiKey))
      configuration := some
        { baseURL := some (jsOrStr m.baseUrl "https://openrouter.ai/api/v1")
          usesSafeFetch := usesSafeFetch } }
  else if m.provider = "groq" then
    { base with
      apiKey := some (decrypt (jsOrStr m.apiKey s.groqApiKey))
      modelName := modelName }
  else if m.provider = "ollama" then
    { base with
      model := some modelName
      apiKey := some (jsOrStr m.apiKey "default-key")
      baseUrl := some (jsOrStr m.baseUrl "http://localhost:11434") }
  else if m.provider = "lm-studio" then
    { base with
      modelName := modelName
      openAIApiKey := some (jsOrStr m.apiKey "default-key")
      configuration := some
        { baseURL := some (jsOrStr m.baseUrl "http://localhost:1234/v1")
          usesSafeFetch := usesSafeFetch } }
  else if m.provider = "openai-format" then
    extraArgs { base with
      modelName := modelName
      openAIApiKey := some (decrypt (jsOrStr m.apiKey s.openAIApiKey))
      configuration := some
        { baseURL := m.baseUrl
          usesSafeFetch := usesSafeFetch
          dangerouslyAllowBrowser := some true } }
  else
    base

/-- `ChatModelManager.setChatModel`, with adapter construction abstracted as
    `construct` (the `new selectedModel.AIConstructor({...modelConfig})` call,
    which may throw).  Throws (as `.error`) when the key is absent from the
    map or the entry has no credential.  `setModelKey` runs before the `try`
    block; a construction throw is caught, logged and swallowed (the state is
    returned with the previous `chatModel` untouched). -/
def setChatModel {α : Type} (construct : ChatCtorTag → ResolvedConfig → Except String α)
    (decrypt : String → String) (s : Settings)
    (st : ChatManagerState α) (m : CustomModel) : Except String (ChatManagerState α) :=
  let modelKey := m.name ++ "|" ++ m.provider
  match objGet st.modelMap modelKey with
  | none => .error ("No model found for: " ++ modelKey)
  | some selectedModel =>
    if !selectedModel.hasApiKey then
      .error ("API key is not provided for the model: " ++ modelKey ++ ". Model switch failed.")
    else
      let modelConfig := chatGetModelConfig decrypt s m
      let st1 := { st with modelKey := some modelKey }
      match construct selectedModel.ctor modelConfig with
      | .ok newModelInstance => .ok { st1 with chatModel := some newModelInstance }
      | .error _ => .ok st1

/-- `ChatModelManager.ping`: the two-phase CORS retry.  `attempt b` is the
    outcome of the `tryPing(b)` closure (build the ping config with
    `enableCors := b`, construct a test client, `invoke` with a 3s timeout) —
    the network outcome is the only abstracted part, the control flow is the
    source's `try`/`catch` nesting.  Returns the ordered list of `enableCors`
    values attempted together with the surfaced result; in the
    both-attempts-fail case the inner `catch (error)` shadows the outer one,
    so the rethrown error is the second attempt's. -/
def chatPing {ε : Type} (attempt : Bool → Except ε Unit) : List Bool × Except ε Bool :=
  match attempt false with
  | .ok _ => ([false], .ok true)
  | .error _ =>
    match attempt true with
    | .ok _ => ([false, true], .ok true)
    | .error e => ([false, true], .error e)

/-- `EmbeddingManager.ping`: identical retry structure to the chat ping
    (`tryPing` embeds the fixed test string instead of invoking a chat
    completion); the outer `catch` binds no name at all, so only the second
    attempt's error can be rethrown. -/
def embeddingPing {ε : Type} (attempt : Bool → Except ε Unit) : List Bool × Except ε Bool :=
  match attempt false with
  | .ok _ => ([false], .ok true)
  | .error _ =>
    match attempt true with
    | .ok _ => ([false, true], .ok true)
    | .error e => ([false, true], .error e)

/-- The call options validated by `ChainManager.validateModelOptions`. -/
structure CustomChatModelCallOptions where
  timeout : Option Int := none
  streaming : Option Bool := none
  maxTokens : Option Int := none
  temperature : Option Rat := none
deriving DecidableEq

/-- Result record of `validateModelOptions`. -/
structure ModelValidation where
  isValid : Bool
  error : Option String := none
deriving DecidableEq

/-- `ChainManager.validateModelOptions`: the guard is
    `options.timeout && (options.timeout < 1 || options.timeout > 120000)`,
    so a timeout that is absent or `0` (falsy) skips the range check and is
    reported valid. -/
def validateModelOptions (options : CustomChatModelCallOptions) : ModelValidation :=
  match options.timeout with
  | some t =>
      if t ≠ 0 ∧ (t < 1 ∨ t > 120000) then
        { isValid := false, error := some "Timeout must be between 1 and 120000" }
      else { isValid := true }
  | none => { isValid := true }

/-- `lodash.merge({}, prev, partial)` on the flat runtime-config records:
    field-wise, a field the partial defines wins, a field the partial leaves
    `undefined` keeps the previous value (`lodash` skips `undefined` source
    fields). -/
def mergeModelConfigRec (prev patch : ModelConfigRec) : ModelConfigRec :=
  { temperature := match patch.temperature with | some v => some v | none => prev.temperature
    maxTokens := match patch.maxTokens with | some v => some v | none => prev.maxTokens
    maxCompletionTokens := match patch.maxCompletionTokens with
      | some v => some v | none => prev.maxCompletionTokens
    reasoningEffort := match patch.reasoningEffort with
      | some v => some v | none => prev.reasoningEffort
    azureOpenAIApiKey := match patch.azureOpenAIApiKey with
      | some v => some v | none => prev.azureOpenAIApiKey
    azureOpenAIApiInstanceName := match patch.azureOpenAIApiInstanceName with
      | some v => some v | none => prev.azureOpenAIApiInstanceName
    azureOpenAIApiDeploymentName := match patch.azureOpenAIApiDeploymentName with
      | some v => some v | none => prev.azureOpenAIApiDeploymentName
    azureOpenAIApiVersion := match patch.azureOpenAIApiVersion with
      | some v => some v | none => prev.azureOpenAIApiVersion }

/-- The deep merge the specification describes for `updateRuntimeConfig`:
    every field present in the partial takes the partial's value, every field
    absent from the partial keeps the previous value.  (Stated from the
    spec's words, for comparison with what `updateModelConfig` stores.) -/
def specDeepMerge (prev patch : ModelConfigRec) : ModelConfigRec :=
  { temperature := match patch.temperature with | some v => some v | none => prev.temperature
    maxTokens := match patch.maxTokens with | some v => some v | none => prev.maxTokens
    maxCompletionTokens := match patch.maxCompletionTokens with
      | some v => some v | none => prev.maxCompletionTokens
    reasoningEffort := match patch.reasoningEffort with
      | some v => some v | none => prev.reasoningEffort
    azureOpenAIApiKey := match patch.azureOpenAIApiKey with
      | some v => some v | none => prev.azureOpenAIApiKey
    azureOpenAIApiInstanceName := match patch.azureOpenAIApiInstanceName with
      | some v => some v | none => prev.azureOpenAIApiInstanceName
    azureOpenAIApiDeploymentName := match patch.azureOpenAIApiDeploymentName with
      | some v => some v | none => prev.azureOpenAIApiDeploymentName
    azureOpenAIApiVersion := match patch.azureOpenAIApiVersion with
      | some v => some v | none => prev.azureOpenAIApiVersion }

/-- The guard `newConfig.maxCompletionTokens !== undefined && newConfig.maxCompletionTokens < 0`
    of `updateModelConfig`. -/
def invalidMaxCompletionTokens (c : ModelConfigRec) : Bool :=
  match c.maxCompletionTokens with
  | some v => decide (v < 0)
  | none => false

/-- The guard `newConfig.reasoningEffort !== undefined && (newConfig.reasoningEffort < 0 || newConfig.reasoningEffort > 100)`
    of `updateModelConfig`. -/
def invalidReasoningEffort (c : ModelConfigRec) : Bool :=
  match c.reasoningEffort with
  | some v => decide (v < 0) || decide (v > 100)
  | none => false

/-- `updateModelConfig` of `aiParams.ts`.  For an `o1-preview*` model key with
    a matching *enabled* Azure deployment, the deployment's four Azure fields
    are merged over the incoming partial first
    (`merge({}, newConfig, {azure fields})`); then `maxCompletionTokens` and
    `reasoningEffort` of the partial are range-checked (a violation throws,
    modelled as `.error` with the thrown message); finally the partial is
    merged over the stored record (`merge({}, modelConfigs[modelKey],
    newConfig)`, an absent record behaving as `{}`) and written back. -/
def updateModelConfig (s : Settings) (modelKey : String) (newConfig : ModelConfigRec) :
    Except String Settings :=
  let newConfig :=
    if strStartsWith modelKey "o1-preview" then
      let deploymentName := ((jsSplit modelKey '|').get? 1).getD ""
      match s.azureOpenAIApiDeployments.find?
          (fun d => d.deploymentName == deploymentName && d.isEnabled) with
      | some deployment =>
          { newConfig with
            azureOpenAIApiKey := some deployment.apiKey
            azureOpenAIApiInstanceName := some deployment.instanceName
            azureOpenAIApiDeploymentName := some deployment.deploymentName
            azureOpenAIApiVersion := some deployment.apiVersion }
      | none => newConfig
    else newConfig
  if invalidMaxCompletionTokens newConfig then
    .error "maxCompletionTokens must be a non-negative number"
  else if invalidReasoningEffort newConfig then
    .error "reasoningEffort must be a number between 0 and 100"
  else
    let prev := (objGet s.modelConfigs modelKey).getD emptyModelConfigRec
    .ok { s with modelConfigs := objSet s.modelConfigs modelKey (mergeModelConfigRec prev newConfig) }

/-- `onDeleteModel` of `GeneralSettings.tsx`: removes every active model whose
    name and provider match the destructured halves of the key; when the
    deleted key is the default model key, the default is reassigned to the
    first enabled model left in the list, or `""` when none is enabled
    (an index past the end of the split behaves like the JS `undefined`
    destructuring result, matching no model). -/
def onDeleteModel (s : Settings) (modelKey : String) : Settings :=
  let parts := jsSplit modelKey '|'
  let updatedActiveModels := s.activeModels.filter (fun m =>
    !(parts.get? 0 == some m.name && parts.get? 1 == some m.provider))
  let newDefaultModelKey :=
    if modelKey = s.defaultModelKey then
      match updatedActiveModels.find? (fun m => m.enabled) with
      | some newDefaultModel => newDefaultModel.name ++ "|" ++ newDefaultModel.provider
      | none => ""
    else s.defaultModelKey
  { s with activeModels := updatedActiveModels, defaultModelKey := newDefaultModelKey }

/-- The first enabled model's key in a model list, or `""` when no model is
    enabled — the reassignment target the claim describes. -/
def firstEnabledKey (models : List CustomModel) : String :=
  match models.find? (fun m => m.enabled) with
  | some m => getModelKey m
  | none => ""

/-- The nine string values of the `EmbeddingModelProviders` enum
    (`src/types.ts`, second copy, which adds `copilot-plus`). -/
def embeddingProviderValues : List String :=
  ["openai", "cohereai", "google", "azure_openai", "ollama", "lm-studio",
   "3rd party (openai-format)", "openai-format", "copilot-plus"]

/-- Identity of the adapter class an embedding provider is constructed with
    (the right-hand sides of `EMBEDDING_PROVIDER_CONSTRUCTORS`). -/
inductive EmbeddingCtorTag where
  | openAIEmbeddings
  | cohereEmbeddings
  | googleGenerativeAIEmbeddings
  | ollamaEmbeddings
deriving DecidableEq

/-- `EMBEDDING_PROVIDER_CONSTRUCTORS` of `embeddingManager.ts` (covers all
    nine embedding providers). -/
def embeddingProviderCtor : String → Option EmbeddingCtorTag
  | "copilot-plus" => some .openAIEmbeddings
  | "openai" => some .openAIEmbeddings
  | "cohereai" => some .cohereEmbeddings
  | "google" => some .googleGenerativeAIEmbeddings
  | "azure_openai" => some .openAIEmbeddings
  | "ollama" => some .ollamaEmbeddings
  | "lm-studio" => some .openAIEmbeddings
  | "3rd party (openai-format)" => some .openAIEmbeddings
  | "openai-format" => some .openAIEmbeddings
  | _ => none

/-- `providerApiKeyMap` of `EmbeddingManager`. -/
def embeddingProviderDefaultKey (s : Settings) : String → Option String
  | "openai" => some s.openAIApiKey
  | "cohereai" => some s.cohereApiKey
  | "google" => some s.googleApiKey
  | "azure_openai" => some s.azureOpenAIApiKey
  | "ollama" => some "default-key"
  | "lm-studio" => some "default-key"
  | "3rd party (openai-format)" => some ""
  | "openai-format" => some ""
  | "copilot-plus" => some s.plusLicenseKey
  | _ => none

/-- An entry of `EmbeddingManager.modelMap`. -/
structure EmbeddingMapEntry where
  hasApiKey : Bool
  ctor : EmbeddingCtorTag
  vendor : String
deriving DecidableEq

/-- Loop body of `EmbeddingManager.buildModelMap`: a provider outside the
    embedding enum is skipped with a warning (`validateProvider` is checked
    before `enabled`); otherwise the credential is
    `model.apiKey || (providerApiKeyMap[provider] ? providerApiKeyMap[provider]() : undefined)`
    and the entry records `Boolean(apiKey)`. -/
def embeddingBuildModelMapGo (s : Settings) :
    List CustomModel → List (String × EmbeddingMapEntry) →
    List (String × EmbeddingMapEntry)
  | [], acc => acc
  | m :: rest, acc =>
    if embeddingProviderValues.contains m.provider then
      if m.enabled then
        match embeddingProviderCtor m.provider with
        | none => embeddingBuildModelMapGo s rest acc
        | some ctor =>
            let apiKey := jsOrStr m.apiKey ((embeddingProviderDefaultKey s m.provider).getD "")
            let modelKey := m.name ++ "|" ++ m.provider
            let entry : EmbeddingMapEntry :=
              { hasApiKey := apiKey ≠ "", ctor := ctor, vendor := m.provider }
            embeddingBuildModelMapGo s rest (objSet acc modelKey entry)
      else embeddingBuildModelMapGo s rest acc
    else embeddingBuildModelMapGo s rest acc

/-- `EmbeddingManager.initialize`'s rebuild: a fresh map from
    `settings.activeEmbeddingModels`. -/
def embeddingBuildModelMap (s : Settings) : List (String × EmbeddingMapEntry) :=
  embeddingBuildModelMapGo s s.activeEmbeddingModels []

/-- The static state of `EmbeddingManager` that a settings change rebuilds. -/
structure EmbeddingManagerState where
  modelMap : List (String × EmbeddingMapEntry) := []
deriving DecidableEq

/-- A settings-change rebuild of the embedding registry. -/
def embeddingRebuild (s : Settings) (st : EmbeddingManagerState) : EmbeddingManagerState :=
  { st with modelMap := embeddingBuildModelMap s }

/-- Helper: when the default is non-empty, the JS string-or is non-empty. -/
theorem jsOrStr_ne_empty (a : Option String) (b : String) (hb : b ≠ "") :
    jsOrStr a b ≠ "" := by
  cases a with
  | none => simpa [jsOrStr] using hb
  | some s =>
      by_cases hs : s = "" <;> simp [jsOrStr, hs, hb]

/-- A ping environment in which both attempts fail, with distinguishable
    errors ("original-error" for the first, no-CORS attempt; "cors-error" for
    the CORS retry). -/
def bothFailAttempt : Bool → Except String Unit :=
  fun enableCors => if enableCors then .error "cors-error" else .error "original-error"

/-- Claim C1, counterexample: with the first (enableCors=false) attempt
    failing with "original-error" and the CORS retry failing with
    "cors-error", the chat ping surfaces "cors-error" — not the original
    error from the first attempt as the claim states (the inner
    `catch (error)` shadows the outer binding). -/
theorem c1_ping_counterexample :
    chatPing bothFailAttempt = ([false, true], Except.error "cors-error")
    ∧ embeddingPing bothFailAttempt = ([false, true], Except.error "cors-error")
    ∧ (Except.error "cors-error" : Except String Bool) ≠ Except.error "original-error" := by
  refine ⟨rfl, rfl, by simp⟩

/-- Claim C1, amended: when the first ping attempt (enableCors=false) fails
    and the retry (enableCors=true) also fails, both the chat and the
    embedding ping attempt exactly the sequence [false, true] — one CORS
    retry before surfacing — and the error surfaced to the caller is the
    SECOND (CORS-enabled) attempt's error, not the original first error. -/
theorem c1_ping_retry_once_surfaces_second_error {ε : Type}
    (attempt : Bool → Except ε Unit) (e₁ e₂ : ε)
    (h₁ : attempt false = Except.error e₁) (h₂ : attempt true = Except.error e₂) :
    chatPing attempt = ([false, true], Except.error e₂)
    ∧ embeddingPing attempt = ([false, true], Except.error e₂) := by
  constructor <;> simp only [chatPing, embeddingPing, h₁, h₂]

/-- Witness for the amended C1 theorem at the concrete two-error environment. -/
theorem c1_ping_retry_once_surfaces_second_error_witness :
    chatPing bothFailAttempt = ([false, true], Except.error "cors-error")
    ∧ embeddingPing bothFailAttempt = ([false, true], Except.error "cors-error") :=
  c1_ping_retry_once_surfaces_second_error bothFailAttempt "original-error" "cors-error" rfl rfl

/-- Claim C3, counterexample: `validateModelOptions` ACCEPTS `timeout = 0`
    (the claim states it is rejected): `options.timeout &&` short-circuits on
    the falsy value 0, skipping the range check. -/
theorem c3_validation_counterexample :
    validateModelOptions { timeout := some 0 } = { isValid := true, error := none } := rfl

/-- Claim C3, amended: validation rejects timeout=120001, reasoningEffort=-1,
    reasoningEffort=101 and maxCompletionTokens=-1 with a validation error,
    and accepts timeout=1, timeout=120000, reasoningEffort=0 and
    reasoningEffort=100; timeout=0, however, is also accepted, because the
    falsy value 0 skips the range check. -/
theorem c3_validation_boundaries :
    validateModelOptions { timeout := some 0 } = { isValid := true, error := none }
    ∧ validateModelOptions { timeout := some 1 } = { isValid := true, error := none }
    ∧ validateModelOptions { timeout := some 120000 } = { isValid := true, error := none }
    ∧ validateModelOptions { timeout := some 120001 }
        = { isValid := false, error := some "Timeout must be between 1 and 120000" }
    ∧ updateModelConfig {} "m|openai" { reasoningEffort := some (-1) }
        = Except.error "reasoningEffort must be a number between 0 and 100"
    ∧ updateModelConfig {} "m|openai" { reasoningEffort := some 101 }
        = Except.error "reasoningEffort must be a number between 0 and 100"
    ∧ updateModelConfig {} "m|openai" { maxCompletionTokens := some (-1) }
        = Except.error "maxCompletionTokens must be a non-negative number"
    ∧ (∃ s, updateModelConfig {} "m|openai" { reasoningEffort := some 0 } = Except.ok s)
    ∧ (∃ s, updateModelConfig {} "m|openai" { reasoningEffort := some 100 } = Except.ok s) := by
  exact ⟨rfl, rfl, rfl, rfl, rfl, rfl, rfl, ⟨_, rfl⟩, ⟨_, rfl⟩⟩

/-- Claim C7: when the registry entry for the requested model exists and has
    a credential but the provider adapter's construction throws, `setChatModel`
    returns normally (no exception propagates) and the previously active live
    client reference is left unchanged. -/
theorem c7_construction_failure_keeps_client {α : Type}
    (construct : ChatCtorTag → ResolvedConfig → Except String α)
    (decrypt : String → String) (s : Settings) (st : ChatManagerState α)
    (m : CustomModel) (entry : ChatMapEntry) (e : String)
    (hmap : objGet st.modelMap (m.name ++ "|" ++ m.provider) = some entry)
    (hkey : entry.hasApiKey = true)
    (hfail : construct entry.ctor (chatGetModelConfig decrypt s m) = Except.error e) :
    ∃ st', setChatModel construct decrypt s st m = Except.ok st'
      ∧ st'.chatModel = st.chatModel := by
  refine ⟨{ st with modelKey := some (m.name ++ "|" ++ m.provider) }, ?_, rfl⟩
  simp [setChatModel, hmap, hkey, hfail]

/-- Claim C10: `setChatModel` runs `setModelKey` before the constructor call,
    so after a construction failure the current model key names the model
    whose construction failed while the live-client reference still holds the
    previous client — the two can disagree. -/
theorem c10_key_updated_client_stale {α : Type}
    (construct : ChatCtorTag → ResolvedConfig → Except String α)
    (decrypt : String → String) (s : Settings) (st : ChatManagerState α)
    (m : CustomModel) (entry : ChatMapEntry) (e : String)
    (hmap : objGet st.modelMap (m.name ++ "|" ++ m.provider) = some entry)
    (hkey : entry.hasApiKey = true)
    (hfail : construct entry.ctor (chatGetModelConfig decrypt s m) = Except.error e) :
    ∃ st', setChatModel construct decrypt s st m = Except.ok st'
      ∧ st'.modelKey = some (m.name ++ "|" ++ m.provider)
      ∧ st'.chatModel = st.chatModel := by
  refine ⟨{ st with modelKey := some (m.name ++ "|" ++ m.provider) }, ?_, rfl, rfl⟩
  simp [setChatModel, hmap, hkey, hfail]

/-- A one-entry model map whose registered model has a credential. -/
def failMapEntry : ChatMapEntry :=
  { hasApiKey := true, ctor := .chatOpenAI, vendor := "openai" }

/-- Manager state with a live client (7) for a previously activated model. -/
def failState : ChatManagerState Nat :=
  { modelMap := [("gpt-4o|openai", failMapEntry)]
    chatModel := some 7
    modelKey := some "old-model|anthropic" }

/-- The descriptor whose activation will be attempted. -/
def failModel : CustomModel := { name := "gpt-4o", provider := "openai" }

/-- An adapter constructor that always throws. -/
def failingConstruct : ChatCtorTag → ResolvedConfig → Except String Nat :=
  fun _ _ => .error "ctor boom"

/-- Witness for C7 at a concrete state: the previous client (7) survives the
    failed construction and no error escapes. -/
theorem c7_construction_failure_keeps_client_witness :
    ∃ st', setChatModel failingConstruct (fun x => x) {} failState failModel = Except.ok st'
      ∧ st'.chatModel = some 7 :=
  c7_construction_failure_keeps_client failingConstruct (fun x => x) {} failState failModel
    failMapEntry "ctor boom" rfl rfl rfl

/-- Witness for C10 at a concrete state: after the failed construction the
    current key is the failed model's key while the client is still 7. -/
theorem c10_key_updated_client_stale_witness :
    ∃ st', setChatModel failingConstruct (fun x => x) {} failState failModel = Except.ok st'
      ∧ st'.modelKey = some "gpt-4o|openai"
      ∧ st'.chatModel = some 7 :=
  c10_key_updated_client_stale failingConstruct (fun x => x) {} failState failModel
    failMapEntry "ctor boom" rfl rfl rfl

/-- Claim C8: rebuilding the chat or embedding registry twice with identical
    settings yields identical model maps — the same entries, hence the same
    key set and the same `hasApiKey` value for each key (the rebuild result
    does not depend on the map it replaces). -/
theorem c8_rebuild_idempotent {α : Type} (s : Settings)
    (st : ChatManagerState α) (est : EmbeddingManagerState) :
    ((chatRebuild s (chatRebuild s st)).modelMap = (chatRebuild s st).modelMap
      ∧ (chatRebuild s (chatRebuild s st)).modelMap.map Prod.fst
          = (chatRebuild s st).modelMap.map Prod.fst
      ∧ ∀ k, (objGet (chatRebuild s (chatRebuild s st)).modelMap k).map ChatMapEntry.hasApiKey
          = (objGet (chatRebuild s st).modelMap k).map ChatMapEntry.hasApiKey)
    ∧ ((embeddingRebuild s (embeddingRebuild s est)).modelMap
          = (embeddingRebuild s est).modelMap
      ∧ ∀ k, (objGet (embeddingRebuild s (embeddingRebuild s est)).modelMap k).map
            EmbeddingMapEntry.hasApiKey
          = (objGet (embeddingRebuild s est).modelMap k).map EmbeddingMapEntry.hasApiKey) :=
  ⟨⟨rfl, rfl, fun _ => rfl⟩, rfl, fun _ => rfl⟩

/-- Claim C9: deleting the model whose key equals `defaultModelKey` reassigns
    the default to the first enabled model remaining in the active list (or
    `""` if none is enabled); deleting any other model leaves
    `defaultModelKey` unchanged. -/
theorem c9_delete_default_reassigns (s : Settings) (modelKey : String) :
    (modelKey = s.defaultModelKey →
      (onDeleteModel s modelKey).defaultModelKey
        = firstEnabledKey (onDeleteModel s modelKey).activeModels)
    ∧ (modelKey ≠ s.defaultModelKey →
      (onDeleteModel s modelKey).defaultModelKey = s.defaultModelKey) := by
  constructor
  · intro h
    simp only [onDeleteModel, firstEnabledKey, getModelKey, if_pos h]
  · intro h
    simp only [onDeleteModel, if_neg h]

/-- Two enabled chat models with the first one set as the default. -/
def deleteSettings : Settings :=
  { activeModels :=
      [{ name := "gpt-4o", provider := "openai" },
       { name := "claude-3", provider := "anthropic" }]
    defaultModelKey := "gpt-4o|openai" }

/-- Witness for C9: deleting the default model at the concrete settings
    reassigns the default to the first enabled survivor. -/
theorem c9_delete_default_reassigns_witness :
    (onDeleteModel deleteSettings "gpt-4o|openai").defaultModelKey
      = firstEnabledKey (onDeleteModel deleteSettings "gpt-4o|openai").activeModels :=
  (c9_delete_default_reassigns deleteSettings "gpt-4o|openai").1 rfl

/-- Scenario A's descriptor: `{name:"gpt-4o", provider:"openai", apiKey:""}`. -/
def scenarioAModel : CustomModel :=
  { name := "gpt-4o", provider := "openai", apiKey := some "" }

/-- Scenario A's settings: the descriptor active, global `openAIApiKey` set. -/
def scenarioASettings : Settings :=
  { activeModels := [scenarioAModel], openAIApiKey := "sk-live" }

/-- Claim C5: chat credential resolution returns the descriptor's own apiKey
    when non-empty, else the provider default from settings (the empty string
    when that default is empty too); the pure-local providers always resolve
    to a non-empty sentinel; and Scenario A resolves to "sk-live" with a
    registry entry whose `hasApiKey` is true. -/
theorem c5_credential_resolution (s : Settings) (m : CustomModel) :
    (∀ k, m.apiKey = some k → k ≠ "" → chatResolveCredential s m = k)
    ∧ ((m.apiKey = none ∨ m.apiKey = some "") →
        chatResolveCredential s m = (chatProviderDefaultKey s m.provider).getD "")
    ∧ ((m.provider = "ollama" ∨ m.provider = "lm-studio" ∨ m.provider = "openai-format") →
        chatResolveCredential s m ≠ "")
    ∧ chatResolveCredential scenarioASettings scenarioAModel = "sk-live"
    ∧ objGet (chatBuildModelMap scenarioASettings).1 "gpt-4o|openai"
        = some { hasApiKey := true, ctor := .chatOpenAI, vendor := "openai" } := by
  refine ⟨?_, ?_, ?_, rfl, rfl⟩
  · intro k hk hne
    simp [chatResolveCredential, jsOrStr, hk, hne]
  · rintro (h | h) <;> simp [chatResolveCredential, jsOrStr, h]
  · rintro (h | h | h) <;>
      · simp only [chatResolveCredential, h]
        exact jsOrStr_ne_empty _ _ (show ("default-key" : String) ≠ "" by decide)

/-- Witness for C5: a non-empty model-specific key wins over the provider
    default at concrete inputs. -/
theorem c5_credential_resolution_witness :
    chatResolveCredential scenarioASettings
      { name := "gpt-4o", provider := "openai", apiKey := some "own-key" } = "own-key" :=
  (c5_credential_resolution scenarioASettings
    { name := "gpt-4o", provider := "openai", apiKey := some "own-key" }).1
    "own-key" rfl (by decide)

/-- An o1 (reasoning-class) model whose runtime config sets `maxTokens`,
    `maxCompletionTokens` and `reasoningEffort`. -/
def o1Settings : Settings :=
  { modelConfigs := [("o1|openai",
      { maxTokens := some 5000, maxCompletionTokens := some 1000, reasoningEffort := some 50 })] }

/-- The reasoning-class descriptor for `o1Settings`. -/
def o1Model : CustomModel := { name := "o1", provider := "openai" }

/-- Claim C2, counterexample: for the reasoning-class model "o1" with runtime
    `maxTokens = 5000`, the resolved parameter object still carries
    `maxTokens = 5000` (the claim says `maxTokens` is absent): the
    `handleOpenAIExtraArgs` spread omits the `maxTokens` key, so the base
    config's value survives `{...baseConfig, ...providerConfig}`. The
    reasoning effort also appears as a top-level `reasoningEffort` field, not
    only inside the opaque `extraParams`. -/
theorem c2_reasoning_counterexample :
    (chatGetModelConfig (fun x => x) o1Settings o1Model).maxTokens = some 5000
    ∧ (chatGetModelConfig (fun x => x) o1Settings o1Model).reasoningEffort = some 50 :=
  ⟨rfl, rfl⟩

/-- Claim C2, amended: for every model whose name has the reasoning-class
    prefix "o1" and whose provider takes the OpenAI-style branch (openai,
    azure_openai, openai-format), the resolved parameter object forces
    `temperature = 1`, carries the configured `maxCompletionTokens`, carries
    the reasoning effort in the opaque `extraParams.reasoning_effort` field
    (and never mixes it into `maxTokens`) — but `maxTokens` is NOT absent: it
    keeps the runtime config's `maxTokens` value, and the reasoning effort
    additionally appears as a top-level `reasoningEffort` field. -/
theorem c2_reasoning_config (decrypt : String → String) (s : Settings) (m : CustomModel)
    (hO1 : strStartsWith m.name "o1" = true)
    (hp : m.provider = "openai" ∨ m.provider = "azure_openai" ∨ m.provider = "openai-format") :
    (chatGetModelConfig decrypt s m).temperature = some 1
    ∧ (chatGetModelConfig decrypt s m).maxCompletionTokens
        = ((objGet s.modelConfigs (getModelKey m)).getD emptyModelConfigRec).maxCompletionTokens
    ∧ (chatGetModelConfig decrypt s m).extraParams
        = some { reasoning_effort :=
            ((objGet s.modelConfigs (getModelKey m)).getD emptyModelConfigRec).reasoningEffort }
    ∧ (chatGetModelConfig decrypt s m).maxTokens
        = ((objGet s.modelConfigs (getModelKey m)).getD emptyModelConfigRec).maxTokens
    ∧ (chatGetModelConfig decrypt s m).reasoningEffort
        = ((objGet s.modelConfigs (getModelKey m)).getD emptyModelConfigRec).reasoningEffort := by
  rcases hp with hp | hp | hp <;>
    simp [chatGetModelConfig, handleOpenAIExtraArgs, getModelKey, hp, hO1]

/-- Witness for the amended C2 theorem at the concrete o1 descriptor. -/
theorem c2_reasoning_config_witness :
    (chatGetModelConfig (fun x => x) o1Settings o1Model).temperature = some 1
    ∧ (chatGetModelConfig (fun x => x) o1Settings o1Model).maxCompletionTokens = some 1000
    ∧ (chatGetModelConfig (fun x => x) o1Settings o1Model).extraParams
        = some { reasoning_effort := some 50 }
    ∧ (chatGetModelConfig (fun x => x) o1Settings o1Model).maxTokens = some 5000
    ∧ (chatGetModelConfig (fun x => x) o1Settings o1Model).reasoningEffort = some 50 :=
  c2_reasoning_config (fun x => x) o1Settings o1Model (by decide) (Or.inl rfl)

/-- Settings for Scenario E: the deployment "deployment-A" exists and is
    enabled, and all four global Azure fields are set to distinct values. -/
def azureScenarioSettings : Settings :=
  { azureOpenAIApiKey := "glob-key"
    azureOpenAIApiInstanceName := "glob-inst"
    azureOpenAIApiDeploymentName := "glob-dep"
    azureOpenAIApiVersion := "glob-ver"
    azureOpenAIApiDeployments :=
      [{ deploymentName := "deployment-A", instanceName := "dep-inst",
         apiKey := "dep-key", apiVersion := "dep-ver", isEnabled := true }] }

/-- The descriptor whose model key is `"o1-preview|deployment-A"` (the
    deployment name sits in the provider slot of the key). -/
def azureScenarioModel : CustomModel :=
  { name := "o1-preview", provider := "deployment-A" }

/-- Claim C6, counterexample: for model key "o1-preview|deployment-A" with the
    deployment "deployment-A" present and enabled, the resolved configuration
    carries NO Azure fields at all — neither the deployment's values nor the
    global settings' — because "deployment-A" is not a recognised provider, so
    `providerConfig[provider] || {}` drops the Azure branch entirely. -/
theorem c6_azure_counterexample :
    getModelKey azureScenarioModel = "o1-preview|deployment-A"
    ∧ (chatGetModelConfig (fun x => x) azureScenarioSettings azureScenarioModel).azureOpenAIApiKey
        = none
    ∧ (chatGetModelConfig (fun x => x) azureScenarioSettings
        azureScenarioModel).azureOpenAIApiInstanceName = none
    ∧ (chatGetModelConfig (fun x => x) azureScenarioSettings
        azureScenarioModel).azureOpenAIApiDeploymentName = none
    ∧ (chatGetModelConfig (fun x => x) azureScenarioSettings
        azureScenarioModel).azureOpenAIApiVersion = none :=
  ⟨rfl, rfl, rfl, rfl, rfl⟩

/-- Claim C6, amended: for any settings in which an enabled deployment named
    "deployment-A" exists, resolving the descriptor with model key
    "o1-preview|deployment-A" yields a configuration with no Azure fields at
    all (so, in particular, nothing is taken from the global Azure settings):
    the deployment's values are read into intermediate variables but dropped,
    because "deployment-A" is not a recognised provider. -/
theorem c6_azure_fields_dropped (decrypt : String → String) (s : Settings) (m : CustomModel)
    (_hname : m.name = "o1-preview") (hprov : m.provider = "deployment-A")
    (_hdep : ∃ d ∈ s.azureOpenAIApiDeployments,
      d.deploymentName = "deployment-A" ∧ d.isEnabled = true) :
    (chatGetModelConfig decrypt s m).azureOpenAIApiKey = none
    ∧ (chatGetModelConfig decrypt s m).azureOpenAIApiInstanceName = none
    ∧ (chatGetModelConfig decrypt s m).azureOpenAIApiDeploymentName = none
    ∧ (chatGetModelConfig decrypt s m).azureOpenAIApiVersion = none := by
  simp [chatGetModelConfig, hprov]

/-- Witness for the amended C6 theorem at the Scenario E settings. -/
theorem c6_azure_fields_dropped_witness :
    (chatGetModelConfig (fun x => x) azureScenarioSettings azureScenarioModel).azureOpenAIApiKey
        = none
    ∧ (chatGetModelConfig (fun x => x) azureScenarioSettings
        azureScenarioModel).azureOpenAIApiInstanceName = none
    ∧ (chatGetModelConfig (fun x => x) azureScenarioSettings
        azureScenarioModel).azureOpenAIApiDeploymentName = none
    ∧ (chatGetModelConfig (fun x => x) azureScenarioSettings
        azureScenarioModel).azureOpenAIApiVersion = none :=
  c6_azure_fields_dropped (fun x => x) azureScenarioSettings azureScenarioModel rfl rfl
    ⟨{ deploymentName := "deployment-A", instanceName := "dep-inst",
       apiKey := "dep-key", apiVersion := "dep-ver", isEnabled := true },
     List.Mem.head _, rfl, rfl⟩

/-- The source's `lodash.merge({}, prev, patch)` coincides with the deep merge
    the specification describes. -/
theorem mergeModelConfigRec_eq_specDeepMerge : mergeModelConfigRec = specDeepMerge := rfl

/-- Settings whose runtime record for "o1-preview|deployment-A" stores an
    Azure key, alongside a matching enabled deployment. -/
def o1PreviewSettings : Settings :=
  { azureOpenAIApiDeployments :=
      [{ deploymentName := "deployment-A", instanceName := "dep-inst",
         apiKey := "dep-key", apiVersion := "dep-ver", isEnabled := true }]
    modelConfigs := [("o1-preview|deployment-A", { azureOpenAIApiKey := some "old-key" })] }

/-- Claim C4, counterexample: updating the key "o1-preview|deployment-A" with
    the EMPTY partial does not return the deep merge of the previous record
    and the partial (which would leave `azureOpenAIApiKey = "old-key"`): the
    matching enabled deployment's Azure fields are forced into the record, so
    the stored `azureOpenAIApiKey` becomes "dep-key". -/
theorem c4_merge_counterexample :
    ∃ s' r, updateModelConfig o1PreviewSettings "o1-preview|deployment-A" {} = Except.ok s'
      ∧ objGet s'.modelConfigs "o1-preview|deployment-A" = some r
      ∧ r.azureOpenAIApiKey = some "dep-key"
      ∧ r ≠ specDeepMerge { azureOpenAIApiKey := some "old-key" } {} := by
  refine ⟨_, _, rfl, rfl, rfl, by decide⟩

/-- Claim C4, amended: for every model key that does not start with
    "o1-preview" (those keys additionally receive the matching enabled
    deployment's Azure fields) and every partial passing the range
    validations, the record resulting from `updateModelConfig` is exactly the
    deep merge of the previous record and the partial: every field present in
    the partial takes the partial's value and every field absent from the
    partial keeps its previous value. -/
theorem c4_update_is_deep_merge (s : Settings) (modelKey : String)
    (patch prev : ModelConfigRec)
    (hkey : strStartsWith modelKey "o1-preview" = false)
    (hmc : ∀ v, patch.maxCompletionTokens = some v → 0 ≤ v)
    (hre : ∀ v, patch.reasoningEffort = some v → 0 ≤ v ∧ v ≤ 100)
    (hprev : (objGet s.modelConfigs modelKey).getD emptyModelConfigRec = prev) :
    updateModelConfig s modelKey patch
      = Except.ok { s with
          modelConfigs := objSet s.modelConfigs modelKey (specDeepMerge prev patch) } := by
  have h1 : invalidMaxCompletionTokens patch = false := by
    unfold invalidMaxCompletionTokens
    cases hx : patch.maxCompletionTokens with
    | none => rfl
    | some v => simpa using not_lt.mpr (hmc v hx)
  have h2 : invalidReasoningEffort patch = false := by
    unfold invalidReasoningEffort
    cases hx : patch.reasoningEffort with
    | none => rfl
    | some v =>
        rcases hre v hx with ⟨hv1, hv2⟩
        simp [not_lt.mpr hv1, not_lt.mpr hv2]
  simp [updateModelConfig, hkey, h1, h2, hprev, mergeModelConfigRec_eq_specDeepMerge]

/-- Settings with a stored runtime record for a non-reasoning model key. -/
def mergeSettings : Settings :=
  { modelConfigs := [("gpt-4|openai", { temperature := some (7/10), maxTokens := some 1000 })] }

/-- Witness for the amended C4 theorem: patching `maxTokens` and
    `reasoningEffort` deep-merges onto the stored record. -/
theorem c4_update_is_deep_merge_witness :
    updateModelConfig mergeSettings "gpt-4|openai"
        { maxTokens := some 2000, reasoningEffort := some 50 }
      = Except.ok { mergeSettings with
          modelConfigs := objSet mergeSettings.modelConfigs "gpt-4|openai"
            (specDeepMerge { temperature := some (7/10), maxTokens := some 1000 }
              { maxTokens := some 2000, reasoningEffort := some 50 }) } :=
  c4_update_is_deep_merge mergeSettings "gpt-4|openai"
    { maxTokens := some 2000, reasoningEffort := some 50 }
    { temperature := some (7/10), maxTokens := some 1000 }
    (by decide)
    (fun v hv => by cases hv)
    (fun v hv => by injection hv with h; rw [h.symm]; exact ⟨by decide, by decide⟩)
    rfl
